import Mathlib

/-!
Verification of the game-engine core declared in `chapter08/09_game_engine.cpp`
(namespace `GameEngine`).  The header gives inline bodies for `Vector2D`,
`EventSystem`, the exception classes, the `GameObject` getters and setters and
the `GameWorld`/`Game` state accessors; the remaining member-function bodies
are declared but not defined in the sources, and are modelled from the spec
where a claim depends on them (each such definition says so in its doc
comment).

Modelling conventions:
* C++ `float` arithmetic is modelled as exact real arithmetic (`ℝ`) for the
  vector-algebra facts; for the claims about the numeric *domain* (NaN,
  infinities) a dedicated type `FloatVal` makes the IEEE special values
  explicit.
* A C++ function that can throw is embedded in `Except GameException`;
  console output is made observable as a `List String` of printed lines.
-/

namespace GameEngine

/-- The game-state enumeration (`enum class GameState`, lines 31-36). -/
inductive GameState where
  | MENU
  | PLAYING
  | PAUSED
  | GAME_OVER
deriving DecidableEq

/-- Model of the C++ `float` domain for the position-validation claims:
finite values are carried exactly as rationals, and the IEEE special values
that the error taxonomy singles out (NaN, the infinities) are explicit
constructors. -/
inductive FloatVal where
  | finite (val : ℚ)
  | posInf
  | negInf
  | nan
deriving DecidableEq

/-- A coordinate is in the valid numeric domain when it is a finite value
(not NaN, not an infinity). -/
def FloatVal.isFinite : FloatVal → Bool
  | .finite _ => true
  | _ => false

/-- The exception taxonomy (lines 74-92): `GameException` carries a message;
`InvalidPositionException` and `GameObjectNotFoundException` derive from it.
They are modelled as one inductive with a constructor per class. -/
inductive GameException where
  | base (msg : String)
  | invalidPosition (msg : String)
  | gameObjectNotFound (name : String)
deriving DecidableEq

/-- `what()` (line 79): the stored message.  `GameObjectNotFoundException`
builds its message from the missing name (lines 90-91). -/
def GameException.what : GameException → String
  | .base m => m
  | .invalidPosition m => m
  | .gameObjectNotFound n => "게임 오브젝트를 찾을 수 없음: " ++ n

/-- `struct Vector2D` (lines 39-71) with `float` modelled as `ℝ` for the
arithmetic claims. -/
structure Vector2D where
  x : ℝ
  y : ℝ

/-- `operator+` (lines 44-46): componentwise sum. -/
noncomputable def Vector2D.add (v other : Vector2D) : Vector2D :=
  ⟨v.x + other.x, v.y + other.y⟩

/-- `operator*` (lines 54-56): scale both components. -/
noncomputable def Vector2D.smul (v : Vector2D) (scalar : ℝ) : Vector2D :=
  ⟨v.x * scalar, v.y * scalar⟩

/-- `distance` (lines 58-62): `sqrt(dx*dx + dy*dy)` for the componentwise
differences. -/
noncomputable def Vector2D.distance (v other : Vector2D) : ℝ :=
  Real.sqrt ((v.x - other.x) * (v.x - other.x) + (v.y - other.y) * (v.y - other.y))

/-- `normalize` (lines 64-70): divide both components by the magnitude, but
only under the guard `magnitude > 0`; otherwise leave the vector unchanged. -/
noncomputable def Vector2D.normalize (v : Vector2D) : Vector2D :=
  if Real.sqrt (v.x * v.x + v.y * v.y) > 0 then
    ⟨v.x / Real.sqrt (v.x * v.x + v.y * v.y), v.y / Real.sqrt (v.x * v.x + v.y * v.y)⟩
  else v

/-- `Vector2D` over the float domain with explicit special values, used for
the claims about NaN/infinite coordinates and for entity state. -/
structure Vector2DF where
  x : FloatVal
  y : FloatVal
deriving DecidableEq

/-- The `Vector2D` constructor (line 42) viewed as a possibly-throwing
operation: its body only initializes `x` and `y`; it contains no domain check
and no `throw`, so it returns normally on every input, NaN and infinities
included. -/
def Vector2DF.construct (x y : FloatVal) : Except GameException Vector2DF :=
  .ok ⟨x, y⟩

/-- A registered callback (`std::function<void(const T&)>`, line 98): invoked
on an event it produces the lines it prints and, possibly, a thrown
exception. -/
def Listener (T : Type) : Type := T → List String × Option GameException

/-- `class EventSystem<T>` (lines 95-114): an ordered list of listeners. -/
structure EventSystem (T : Type) where
  listeners : List (Listener T)

/-- `addListener` (lines 101-103): `push_back`, appending at the end. -/
def EventSystem.addListener {T : Type} (es : EventSystem T) (l : Listener T) :
    EventSystem T :=
  ⟨es.listeners ++ [l]⟩

/-- The body of the `broadcast` loop for one listener (lines 107-111): invoke
it inside `try`; on an exception, print the error line
(`"이벤트 처리 오류: " << e.what()`) and continue. -/
def handleOne {T : Type} (event : T) (l : Listener T) : List String :=
  match l event with
  | (out, none) => out
  | (out, some e) => out ++ ["이벤트 처리 오류: " ++ e.what]

/-- `broadcast` (lines 105-113): run every listener in order, each inside its
own try/catch; the result is the console output.  The return type is pure — a
caught exception never escapes the loop. -/
def EventSystem.broadcast {T : Type} (es : EventSystem T) (event : T) :
    List String :=
  es.listeners.foldl (fun log l => log ++ handleOne event l) []

/-- Registering a list of callbacks by successive `addListener` calls on an
initially empty channel. -/
def registerAll {T : Type} (ls : List (Listener T)) : EventSystem T :=
  ls.foldl EventSystem.addListener ⟨[]⟩

/-- `struct CollisionEvent` (lines 117-120). -/
structure CollisionEvent where
  object1 : String
  object2 : String
  position : Vector2DF

/-- `struct ScoreEvent` (lines 122-125). -/
structure ScoreEvent where
  score : Int
  playerName : String

/-- `class GameObject` data (lines 128-165): position, velocity, name, active
flag and id.  The static counter `nextId` is threaded explicitly where the
construction claims need it. -/
structure GameObject where
  position : Vector2DF
  velocity : Vector2DF
  name : String
  active : Bool
  id : Int
deriving DecidableEq

/-- `getPosition` (line 150). -/
def GameObject.getPosition (g : GameObject) : Vector2DF := g.position

/-- `getVelocity` (line 151). -/
def GameObject.getVelocity (g : GameObject) : Vector2DF := g.velocity

/-- `getName` (line 152). -/
def GameObject.getName (g : GameObject) : String := g.name

/-- `getId` (line 153). -/
def GameObject.getId (g : GameObject) : Int := g.id

/-- `isActive` (line 154). -/
def GameObject.isActive (g : GameObject) : Bool := g.active

/-- `setPosition` (line 156): plain assignment `position = pos`. -/
def GameObject.setPosition (g : GameObject) (pos : Vector2DF) : GameObject :=
  { g with position := pos }

/-- `setVelocity` (line 157): plain assignment `velocity = vel`. -/
def GameObject.setVelocity (g : GameObject) (vel : Vector2DF) : GameObject :=
  { g with velocity := vel }

/-- `setActive` (line 158): plain assignment `active = isActive`. -/
def GameObject.setActive (g : GameObject) (b : Bool) : GameObject :=
  { g with active := b }

/-- `setPosition` (line 156) viewed as a possibly-throwing operation: its body
is the bare assignment, with no domain check and no `throw`, so it returns
normally on every position, NaN and infinities included. -/
def GameObject.setPositionE (g : GameObject) (pos : Vector2DF) :
    Except GameException GameObject :=
  .ok { g with position := pos }

/-- Modelled from the spec: the body of the `GameObject` constructor
(declared line 138, not defined in the sources).  Per §3 the id is
"process-unique, monotonically assigned at construction, never reused", i.e.
the constructor stores the current value of the static counter `nextId`
(lines 134-135) and increments it; velocity starts at zero and the entity
starts active.  Returns the object together with the advanced counter. -/
def GameObject.construct (n : String) (pos : Vector2DF) (nextId : Int) :
    GameObject × Int :=
  ({ position := pos, velocity := ⟨.finite 0, .finite 0⟩, name := n,
     active := true, id := nextId }, nextId + 1)

/-- Constructing a batch of entities one after the other, threading the
static id counter through the constructor calls. -/
def constructAll : List (String × Vector2DF) → Int → List GameObject × Int
  | [], c => ([], c)
  | (n, p) :: rest, c =>
    let gc := GameObject.construct n p c
    let rc := constructAll rest gc.2
    (gc.1 :: rc.1, rc.2)

/-- `class Player` data (lines 168-193): a `GameObject` plus health, score
and speed. -/
structure Player where
  base : GameObject
  health : Int
  score : Int
  speed : FloatVal
deriving DecidableEq

/-- `class GameWorld` data (lines 231-289): the owned entity collection, the
player slot, the current state, the world bounds and the two event channels.
(The random generator members have no observable state relevant to any
claim and are omitted.) -/
structure GameWorld where
  gameObjects : List GameObject
  player : Option Player
  currentState : GameState
  worldWidth : FloatVal
  worldHeight : FloatVal
  collisionEvents : EventSystem CollisionEvent
  scoreEvents : EventSystem ScoreEvent

/-- `setState` (line 268): plain assignment `currentState = state`, with no
transition validation. -/
def GameWorld.setState (w : GameWorld) (s : GameState) : GameWorld :=
  { w with currentState := s }

/-- `getState` (line 269): return `currentState`. -/
def GameWorld.getState (w : GameWorld) : GameState := w.currentState

/-- Removing the first entity of a given name from a list, if any. -/
def removeFirstByName : List GameObject → String → Option (List GameObject)
  | [], _ => none
  | g :: rest, n =>
    if g.name = n then some rest
    else (removeFirstByName rest n).map (fun tail => g :: tail)

/-- Modelled from the spec: the body of `GameWorld::removeGameObject`
(declared line 253, not defined in the sources).  Per §4.3 it "removes the
first entity whose name matches; fails with `GameObjectNotFoundException` if
no match — signals the error, does not abort the caller". -/
def GameWorld.removeGameObject (w : GameWorld) (n : String) :
    Except GameException GameWorld :=
  match removeFirstByName w.gameObjects n with
  | some objs => .ok { w with gameObjects := objs }
  | none => .error (.gameObjectNotFound n)

/-- `class Game` data (lines 292-324): the owned world, the running flag and
the frame-timing statistics.  Wall-clock timestamps are modelled as exact
rationals. -/
structure Game where
  world : GameWorld
  running : Bool
  lastFrameTime : ℚ
  frameCount : Nat
  totalTime : ℚ
  averageFPS : ℚ

/-- `isRunning` (line 322): return `running`. -/
def Game.isRunning (g : Game) : Bool := g.running

/-- `stop` (line 323): the assignment `running = false`. -/
def Game.stop (g : Game) : Game := { g with running := false }

/-- Modelled from the spec: the loop of `Game::run` (declared line 309, not
defined in the sources).  Per §4.4 it repeats "while `running`": one full
iteration (deltaTime measurement, `handleInput`, `update`, `render`,
timestamp bookkeeping) is abstracted as a state transformer `frame`, and the
`running` flag is consulted only between iterations, so a frame always
completes once started.  `fuel` bounds the number of iterations so the model
is total. -/
def Game.runLoop (frame : Game → Game) : Nat → Game → Game
  | 0, g => g
  | fuel + 1, g => if g.running then Game.runLoop frame fuel (frame g) else g

/-- A concrete entity used by the concrete-input theorems. -/
def objA : GameObject :=
  { position := ⟨.finite 0, .finite 0⟩, velocity := ⟨.finite 0, .finite 0⟩,
    name := "alpha", active := true, id := 1 }

/-- A second concrete entity used by the concrete-input theorems. -/
def objB : GameObject :=
  { position := ⟨.finite 3, .finite 4⟩, velocity := ⟨.finite 0, .finite 0⟩,
    name := "beta", active := true, id := 2 }

/-- A concrete world holding `objA` and `objB`, used by the concrete-input
theorems. -/
def sampleWorld : GameWorld :=
  { gameObjects := [objA, objB], player := none, currentState := .MENU,
    worldWidth := .finite 800, worldHeight := .finite 600,
    collisionEvents := ⟨[]⟩, scoreEvents := ⟨[]⟩ }

/-- A concrete collision event used by the concrete-input theorems. -/
def sampleEvent : CollisionEvent :=
  { object1 := "alpha", object2 := "beta", position := ⟨.finite 1, .finite 2⟩ }

/-- A collision listener that throws on every event (prints nothing first). -/
def throwingListener : Listener CollisionEvent :=
  fun _ => ([], some (.base "boom"))

/-- A collision listener that prints one line and returns normally. -/
def okListener : Listener CollisionEvent :=
  fun ev => (["collision: " ++ ev.object1], none)

/-- A second well-behaved collision listener. -/
def okListener2 : Listener CollisionEvent :=
  fun ev => (["second: " ++ ev.object2], none)

/-- A concrete game in the running state, used by the concrete-input
theorems. -/
def sampleGame : Game :=
  { world := sampleWorld, running := true, lastFrameTime := 0,
    frameCount := 0, totalTime := 0, averageFPS := 0 }

/-! ## Theorems -/

/-- Folding the broadcast loop body over a listener list appends, in order,
each listener's handled output to the accumulated log. -/
theorem foldl_log_eq {T : Type} (event : T) :
    ∀ (ls : List (Listener T)) (acc : List String),
      ls.foldl (fun log l => log ++ handleOne event l) acc
        = acc ++ (ls.map (handleOne event)).flatten := by
  intro ls
  induction ls with
  | nil => intro acc; simp
  | cons l rest ih =>
    intro acc
    simp [List.foldl_cons, ih (acc ++ handleOne event l), List.append_assoc]

/-- `broadcast` is the in-order concatenation of each listener's handled
output. -/
theorem broadcast_eq_join {T : Type} (ls : List (Listener T)) (event : T) :
    EventSystem.broadcast ⟨ls⟩ event = (ls.map (handleOne event)).flatten := by
  rw [EventSystem.broadcast]
  simpa using foldl_log_eq event ls []

/-- A listener that throws contributes its output followed by the logged
error line. -/
theorem handleOne_of_throw {T : Type} (event : T) (l : Listener T)
    (e : GameException) (h : (l event).2 = some e) :
    handleOne event l = (l event).1 ++ ["이벤트 처리 오류: " ++ e.what] := by
  have hl : l event = ((l event).1, some e) := by rw [← h]
  unfold handleOne
  rw [hl]

/-- A listener that returns normally contributes exactly its output. -/
theorem handleOne_of_ok {T : Type} (event : T) (l : Listener T)
    (h : (l event).2 = none) :
    handleOne event l = (l event).1 := by
  have hl : l event = ((l event).1, none) := by rw [← h]
  unfold handleOne
  rw [hl]

/-- Listeners appended by successive `addListener` calls end up, in order,
after the listeners already registered. -/
theorem registerAll_listeners {T : Type} :
    ∀ (ls : List (Listener T)) (es : EventSystem T),
      (ls.foldl EventSystem.addListener es).listeners = es.listeners ++ ls := by
  intro ls
  induction ls with
  | nil => intro es; simp
  | cons l rest ih =>
    intro es
    rw [List.foldl_cons, ih (es.addListener l)]
    simp [EventSystem.addListener]

/-- Claim C1: if a listener throws during `broadcast`, the failure is caught
and logged in place (its error line appears in the output right after
whatever the listener printed), every remaining listener is still handled
exactly as it would be on its own, and `broadcast` returns normally — its
result is a plain output log, so no exception reaches the caller. -/
theorem broadcast_isolates_listener_failure {T : Type}
    (before after : List (Listener T)) (l : Listener T) (event : T)
    (e : GameException) (h : (l event).2 = some e) :
    EventSystem.broadcast ⟨before ++ l :: after⟩ event =
      EventSystem.broadcast ⟨before⟩ event ++
        ((l event).1 ++ ["이벤트 처리 오류: " ++ e.what]) ++
        EventSystem.broadcast ⟨after⟩ event := by
  rw [broadcast_eq_join, broadcast_eq_join, broadcast_eq_join, List.map_append,
    List.flatten_append, List.map_cons, List.flatten_cons, handleOne_of_throw event l e h]
  simp [List.append_assoc]

/-- Witness for C1, the spec's end-to-end scenario: two collision listeners
where the first throws on every event — `broadcast` logs the failure and
still invokes the second listener, whose line appears in the output. -/
theorem broadcast_isolation_witness :
    (throwingListener sampleEvent).2 = some (.base "boom") ∧
    EventSystem.broadcast ⟨[] ++ throwingListener :: [okListener]⟩ sampleEvent =
      EventSystem.broadcast ⟨([] : List (Listener CollisionEvent))⟩ sampleEvent ++
        ((throwingListener sampleEvent).1 ++
          ["이벤트 처리 오류: " ++ (GameException.base "boom").what]) ++
        EventSystem.broadcast ⟨[okListener]⟩ sampleEvent ∧
    EventSystem.broadcast ⟨[throwingListener, okListener]⟩ sampleEvent =
      ["이벤트 처리 오류: boom", "collision: alpha"] :=
  ⟨rfl,
   broadcast_isolates_listener_failure [] [okListener] throwingListener
     sampleEvent (.base "boom") rfl,
   rfl⟩

/-- Claim C3: after any sequence of `addListener` calls the registered
callbacks are exactly the added ones in registration order, and (when no
callback throws) `broadcast` produces each callback's output on the event
exactly once, in that order. -/
theorem broadcast_in_registration_order {T : Type} (ls : List (Listener T))
    (event : T) (h : ∀ l ∈ ls, (l event).2 = none) :
    (registerAll ls).listeners = ls ∧
    EventSystem.broadcast (registerAll ls) event
      = (ls.map (fun l => (l event).1)).flatten := by
  have h1 : (registerAll ls).listeners = ls := by
    rw [registerAll, registerAll_listeners]
    rfl
  have h2 : registerAll ls = EventSystem.mk ls := by
    cases hr : registerAll ls with
    | mk lss =>
      rw [hr] at h1
      exact congrArg EventSystem.mk h1
  refine ⟨h1, ?_⟩
  rw [h2, broadcast_eq_join]
  congr 1
  exact List.map_congr_left (fun l hl => handleOne_of_ok event l (h l hl))

/-- Witness for C3: two well-behaved collision listeners registered in
order; `broadcast` outputs the first listener's line and then the second
listener's line, once each. -/
theorem broadcast_order_witness :
    (∀ l ∈ [okListener, okListener2], (l sampleEvent).2 = none) ∧
    (registerAll [okListener, okListener2]).listeners =
      [okListener, okListener2] ∧
    EventSystem.broadcast (registerAll [okListener, okListener2]) sampleEvent
      = ([okListener, okListener2].map (fun l => (l sampleEvent).1)).flatten ∧
    ([okListener, okListener2].map (fun l => (l sampleEvent).1)).flatten =
      ["collision: alpha", "second: beta"] := by
  have h : ∀ l ∈ [okListener, okListener2], (l sampleEvent).2 = none := by
    intro l hl
    rcases List.mem_cons.mp hl with rfl | hl2
    · rfl
    · rcases List.mem_cons.mp hl2 with rfl | hl3
      · rfl
      · exact absurd hl3 (List.not_mem_nil l)
  exact ⟨h, (broadcast_in_registration_order [okListener, okListener2] sampleEvent h).1,
    (broadcast_in_registration_order [okListener, okListener2] sampleEvent h).2, rfl⟩

/-- When no entity in the list bears the name, the removal scan finds
nothing. -/
theorem removeFirstByName_none (n : String) :
    ∀ l : List GameObject, (∀ g ∈ l, g.name ≠ n) →
      removeFirstByName l n = none := by
  intro l
  induction l with
  | nil => intro _; rfl
  | cons g rest ih =>
    intro h
    have hg : ¬ g.name = n := h g (List.mem_cons_self g rest)
    simp [removeFirstByName, hg,
      ih (fun g' hg' => h g' (List.mem_cons_of_mem g hg'))]

/-- The removal scan drops exactly the first entity bearing the name and
keeps everything else in order. -/
theorem removeFirstByName_found (n : String) :
    ∀ (before : List GameObject) (g : GameObject) (after : List GameObject),
      (∀ g' ∈ before, g'.name ≠ n) → g.name = n →
      removeFirstByName (before ++ g :: after) n = some (before ++ after) := by
  intro before
  induction before with
  | nil =>
    intro g after _ hg
    simp [removeFirstByName, hg]
  | cons b rest ih =>
    intro g after hb hg
    have hbn : ¬ b.name = n := hb b (List.mem_cons_self b rest)
    simp [removeFirstByName, hbn,
      ih g after (fun g' h' => hb g' (List.mem_cons_of_mem b h')) hg]

/-- The final value of the id counter after a batch of constructions. -/
theorem constructAll_counter (specs : List (String × Vector2DF)) :
    ∀ c : Int, (constructAll specs c).2 = c + specs.length := by
  induction specs with
  | nil => intro c; simp [constructAll]
  | cons sp rest ih =>
    intro c
    cases sp with
    | mk n p =>
      simp [constructAll, GameObject.construct, ih (c + 1)]
      ring

/-- Every id assigned by a batch of constructions lies between the starting
counter (inclusive) and the final counter (exclusive). -/
theorem constructAll_id_bounds (specs : List (String × Vector2DF)) :
    ∀ c : Int, ∀ g ∈ (constructAll specs c).1,
      c ≤ g.id ∧ g.id < (constructAll specs c).2 := by
  induction specs with
  | nil => intro c g hg; simp [constructAll] at hg
  | cons sp rest ih =>
    intro c g hg
    cases sp with
    | mk n p =>
      rw [constructAll_counter]
      simp only [constructAll, GameObject.construct, List.mem_cons] at hg
      rcases hg with rfl | hg2
      · constructor
        · exact le_refl c
        · simp only [List.length_cons]
          push_cast
          linarith
      · have hb := ih (c + 1) g hg2
        rw [constructAll_counter] at hb
        constructor
        · linarith [hb.1]
        · have := hb.2
          simp only [List.length_cons]
          push_cast at this ⊢
          linarith

/-- The ids assigned by a batch of constructions are strictly increasing in
construction order. -/
theorem constructAll_pairwise (specs : List (String × Vector2DF)) :
    ∀ c : Int,
      List.Pairwise (fun a b => a.id < b.id) (constructAll specs c).1 := by
  induction specs with
  | nil => intro c; simp [constructAll]
  | cons sp rest ih =>
    intro c
    cases sp with
    | mk n p =>
      simp only [constructAll, GameObject.construct]
      refine List.Pairwise.cons ?_ (ih (c + 1))
      intro g hg
      have hb := (constructAll_id_bounds rest (c + 1) g hg).1
      exact lt_of_lt_of_le (lt_add_one c) hb

/-- A game whose running flag is already false performs no further
iteration: the loop returns the state unchanged. -/
theorem runLoop_halted (frame : Game → Game) (g : Game)
    (h : g.running = false) :
    ∀ fuel : Nat, Game.runLoop frame fuel g = g := by
  intro fuel
  cases fuel with
  | zero => rfl
  | succ m => simp [Game.runLoop, h]

/-- Claim C2: on a zero vector, `normalize` leaves the vector unchanged and
the magnitude `sqrt(x*x + y*y)` computes to `0`, so the guard
`magnitude > 0` fails and the division branch is never taken — no division
by zero occurs. -/
theorem normalize_zero_vector (v : Vector2D) (hx : v.x = 0) (hy : v.y = 0) :
    v.normalize = v ∧ Real.sqrt (v.x * v.x + v.y * v.y) = 0 := by
  have hm : Real.sqrt (v.x * v.x + v.y * v.y) = 0 := by
    rw [hx, hy]
    norm_num
  refine ⟨?_, hm⟩
  rw [Vector2D.normalize, hm]
  simp

/-- Witness for C2: the zero vector is left unchanged and its magnitude is
zero. -/
theorem normalize_zero_vector_witness :
    Vector2D.normalize ⟨0, 0⟩ = ⟨0, 0⟩ ∧
      Real.sqrt ((Vector2D.mk 0 0).x * (Vector2D.mk 0 0).x +
        (Vector2D.mk 0 0).y * (Vector2D.mk 0 0).y) = 0 :=
  normalize_zero_vector ⟨0, 0⟩ rfl rfl

/-- Claim C8: vector addition is the componentwise sum, scalar
multiplication scales both components, `distance` is the Euclidean distance
of the two points; consequently addition is commutative and distance is
symmetric. -/
theorem vector2D_arithmetic (v w : Vector2D) (s : ℝ) :
    v.add w = ⟨v.x + w.x, v.y + w.y⟩ ∧
    v.smul s = ⟨v.x * s, v.y * s⟩ ∧
    v.distance w =
      Real.sqrt ((v.x - w.x) * (v.x - w.x) + (v.y - w.y) * (v.y - w.y)) ∧
    v.add w = w.add v ∧
    v.distance w = w.distance v := by
  refine ⟨rfl, rfl, rfl, ?_, ?_⟩
  · rw [Vector2D.add, Vector2D.add, add_comm v.x w.x, add_comm v.y w.y]
  · rw [Vector2D.distance, Vector2D.distance]
    congr 1
    ring

/-- Claim C6: `setState` followed by `getState` returns the state just set,
for every world and every target state — including `GAME_OVER` from `MENU` —
and the holder touches nothing else: no transition validation of any kind. -/
theorem setState_getState (w : GameWorld) (s : GameState) :
    (w.setState s).getState = s ∧
    (w.setState s).gameObjects = w.gameObjects ∧
    (w.setState s).player = w.player :=
  ⟨rfl, rfl, rfl⟩

/-- Claim C10: each `GameObject` setter modifies only its own field —
`setPosition` round-trips through `getPosition` and leaves velocity, name,
id and the active flag unchanged; likewise `setVelocity` and `setActive`. -/
theorem setters_modify_only_their_field (g : GameObject) (p vel : Vector2DF)
    (b : Bool) :
    ((g.setPosition p).getPosition = p ∧
     (g.setPosition p).getVelocity = g.getVelocity ∧
     (g.setPosition p).getName = g.getName ∧
     (g.setPosition p).getId = g.getId ∧
     (g.setPosition p).isActive = g.isActive) ∧
    ((g.setVelocity vel).getVelocity = vel ∧
     (g.setVelocity vel).getPosition = g.getPosition ∧
     (g.setVelocity vel).getName = g.getName ∧
     (g.setVelocity vel).getId = g.getId ∧
     (g.setVelocity vel).isActive = g.isActive) ∧
    ((g.setActive b).isActive = b ∧
     (g.setActive b).getPosition = g.getPosition ∧
     (g.setActive b).getVelocity = g.getVelocity ∧
     (g.setActive b).getName = g.getName ∧
     (g.setActive b).getId = g.getId) :=
  ⟨⟨rfl, rfl, rfl, rfl, rfl⟩, ⟨rfl, rfl, rfl, rfl, rfl⟩,
   ⟨rfl, rfl, rfl, rfl, rfl⟩⟩

/-- Counterexample to claim C4 as stated: passing a position with NaN and
negative-infinite coordinates to the `Vector2D` constructor and to
`setPosition` raises no exception at all — both complete normally, storing
the out-of-domain values, instead of signalling
`InvalidPositionException`. -/
theorem position_validation_counterexample :
    Vector2DF.construct .nan .negInf = .ok ⟨.nan, .negInf⟩ ∧
    objA.setPositionE ⟨.nan, .negInf⟩ =
      .ok { objA with position := ⟨.nan, .negInf⟩ } ∧
    (⟨.nan, .negInf⟩ : Vector2DF).x.isFinite = false :=
  ⟨rfl, rfl, rfl⟩

/-- Claim C4 as amended: the `Vector2D` constructor and
`GameObject::setPosition` perform no domain validation whatsoever — for
every coordinates, in-domain or not (NaN and infinities included), they
complete normally, store the given values and raise no exception;
`InvalidPositionException` is defined in the taxonomy but never raised by
them. -/
theorem position_ops_never_throw (g : GameObject) (x y : FloatVal)
    (pos : Vector2DF) :
    Vector2DF.construct x y = .ok ⟨x, y⟩ ∧
    g.setPositionE pos = .ok { g with position := pos } ∧
    g.setPositionE pos = .ok (g.setPosition pos) :=
  ⟨rfl, rfl, rfl⟩

/-- Claim C5: `removeGameObject(name)` removes the first entity whose name
matches, leaving the others in order and the rest of the world untouched;
when no entity matches it signals `GameObjectNotFoundException` as a
returned error — the collection is not modified and the caller is not
aborted. -/
theorem removeGameObject_spec (w : GameWorld) (n : String) :
    ((∀ g ∈ w.gameObjects, g.name ≠ n) →
      w.removeGameObject n = .error (.gameObjectNotFound n)) ∧
    (∀ (before : List GameObject) (g : GameObject) (after : List GameObject),
      w.gameObjects = before ++ g :: after →
      (∀ g' ∈ before, g'.name ≠ n) → g.name = n →
      w.removeGameObject n = .ok { w with gameObjects := before ++ after }) := by
  constructor
  · intro h
    rw [GameWorld.removeGameObject, removeFirstByName_none n w.gameObjects h]
  · intro before g after heq hb hg
    rw [GameWorld.removeGameObject, heq,
      removeFirstByName_found n before g after hb hg]

/-- Witness for C5: on the two-entity world, removing the absent name
"gamma" signals `GameObjectNotFoundException`, and removing "beta" drops
exactly that entity. -/
theorem removeGameObject_spec_witness :
    (∀ g ∈ sampleWorld.gameObjects, g.name ≠ "gamma") ∧
    sampleWorld.removeGameObject "gamma" =
      .error (.gameObjectNotFound "gamma") ∧
    sampleWorld.removeGameObject "beta" =
      .ok { sampleWorld with gameObjects := [objA] ++ [] } := by
  have h1 : ∀ g ∈ sampleWorld.gameObjects, g.name ≠ "gamma" := by decide
  have h2 : ∀ g' ∈ [objA], g'.name ≠ "beta" := by decide
  exact ⟨h1, (removeGameObject_spec sampleWorld "gamma").1 h1,
    (removeGameObject_spec sampleWorld "beta").2 [objA] objB [] rfl h2 rfl⟩

/-- Claim C7: entities constructed in one process carry pairwise-distinct
ids; ids are assigned in strictly increasing construction order, and every
assigned id stays below the advanced counter, so later constructions —
whether or not earlier entities were removed or destroyed in between, which
never touches the counter — can never reuse one. -/
theorem gameObject_ids_unique_monotone (specs : List (String × Vector2DF))
    (c : Int) :
    List.Pairwise (fun a b => a.id < b.id) (constructAll specs c).1 ∧
    ((constructAll specs c).1.map GameObject.id).Nodup ∧
    (∀ g ∈ (constructAll specs c).1, g.id < (constructAll specs c).2) ∧
    (constructAll specs c).2 = c + specs.length := by
  refine ⟨constructAll_pairwise specs c, ?_,
    fun g hg => (constructAll_id_bounds specs c g hg).2,
    constructAll_counter specs c⟩
  have hmap : List.Pairwise (fun a b : Int => a ≠ b)
      ((constructAll specs c).1.map GameObject.id) := by
    rw [List.pairwise_map]
    exact (constructAll_pairwise specs c).imp (fun h => ne_of_lt h)
  exact hmap

/-- Claim C9: `stop()` sets `running` to false, so `isRunning()` reports
false immediately afterwards; and when a frame of the loop calls `stop`,
the loop finishes that frame in full and then exits — the final state is
exactly the completed frame's state, with no further iterations and no
mid-frame cancellation. -/
theorem stop_ends_loop (frame : Game → Game) (g : Game) (fuel : Nat)
    (hrun : g.running = true) (hstop : (frame g).running = false) :
    g.stop.isRunning = false ∧
    Game.runLoop frame (fuel + 1) g = frame g := by
  refine ⟨rfl, ?_⟩
  have h1 : Game.runLoop frame (fuel + 1) g = Game.runLoop frame fuel (frame g) := by
    simp [Game.runLoop, hrun]
  rw [h1, runLoop_halted frame (frame g) hstop fuel]

/-- Witness for C9: a running game whose frame calls `stop`; after the
frame, the loop is done and the state is the stopped frame's state. -/
theorem stop_ends_loop_witness :
    sampleGame.running = true ∧ (Game.stop sampleGame).running = false ∧
    (sampleGame.stop.isRunning = false ∧
      Game.runLoop Game.stop (3 + 1) sampleGame = Game.stop sampleGame) :=
  ⟨rfl, rfl, stop_ends_loop Game.stop sampleGame 3 rfl rfl⟩

end GameEngine
